import Mathlib

/-!
Shallow embedding of the expiring link store of `src/main.py`
(a Telegram message-relay bot).

Modelling conventions:
* Timestamps (`datetime.now()`, `created_at`) are natural numbers of
  seconds; `datetime.fromisoformat` of a persisted timestamp is modelled
  as already parsed (the program only persists values produced by
  `datetime.now().isoformat()`).
* The JSON value stored under a code (`link_messages[code]`) is a `Rec`:
  a legacy bare string, a JSON object tracked by its optional `message`
  and `created_at` fields (the empty object is `node none none`), or any
  other JSON value (`other`), which carries only its Python truthiness.
* `link_messages` is the association list `Table` with unique keys (as a
  Python dict has); theorems needing uniqueness take a `Nodup` hypothesis.
* The disk file is mirrored in `State.disk`; `save_data`'s `try/except`
  around the write is modelled by a `saveOk : Bool` flag: on failure the
  exception is logged and swallowed, so memory is unchanged and the disk
  keeps its old contents.
* Telegram transport calls (`reply_text`, `get_me`, message deletion) are
  out of scope; replies are collected as a list of the texts sent, and
  the bot username is a parameter.
* Exceptions escaping to the outer `try/except` of a handler are modelled
  by `Except Unit`; the handler converts them to its fixed error reply.
-/

namespace LinkBot

/-- TTL used everywhere in `main.py`: `timedelta(minutes=30)`, in seconds. -/
def ttlSeconds : Nat := 1800

/-- A value stored in `link_messages`: the legacy bare-string format, the
object format with optional `message` / `created_at` fields, or any other
JSON value (tracked only by its Python truthiness). -/
inductive Rec where
  | legacy (s : String)
  | node (message : Option String) (created_at : Option Nat)
  | other (truthyFlag : Bool)
deriving DecidableEq

/-- Python truthiness of a stored value (`if link_data:`): a string is
truthy iff non-empty, a dict iff it has at least one field, and an
`other` value carries its own flag. -/
def Rec.truthy : Rec → Bool
  | .legacy s => !(s == "")
  | .node none none => false
  | .node _ _ => true
  | .other b => b

/-- The in-memory `link_messages` dict: an association list code ↦ record. -/
abbrev Table := List (String × Rec)

/-- Dict lookup `link_messages.get(code)`. -/
def lookup : Table → String → Option Rec
  | [], _ => none
  | (k, v) :: rest, code => if k = code then some v else lookup rest code

/-- Dict assignment `link_messages[code] = r`. -/
def setValue : Table → String → Rec → Table
  | [], code, r => [(code, r)]
  | (k, v) :: rest, code, r =>
      if k = code then (code, r) :: rest else (k, v) :: setValue rest code r

/-- Dict deletion `del link_messages[code]`. -/
def eraseKey : Table → String → Table
  | [], _ => []
  | (k, v) :: rest, code => if k = code then rest else (k, v) :: eraseKey rest code

/-- The expiry test of `cleanup_expired_links`: the record is a dict with a
`created_at` field and `current_time - created_at > timedelta(minutes=30)`. -/
def isExpired (now : Nat) : Rec → Bool
  | .node _ (some c) => c + ttlSeconds < now
  | _ => false

/-- The `expired_codes` list collected by `cleanup_expired_links`. -/
def expiredCodes (now : Nat) (t : Table) : List String :=
  (t.filter (fun p => isExpired now p.2)).map Prod.fst

/-- Pure effect of `cleanup_expired_links` on `link_messages`: delete every
entry whose record is expired. -/
def cleanup_expired_links (now : Nat) (t : Table) : Table :=
  t.filter (fun p => !isExpired now p.2)

/-- Memory plus the mirrored disk file `data.json`. -/
structure State where
  memory : Table
  disk : Table
deriving DecidableEq

/-- Effect of `save_data`: write-through of memory to disk; on an I/O error
(`saveOk = false`) the exception is logged and swallowed, leaving both as
they were. -/
def save_data (saveOk : Bool) (s : State) : State :=
  if saveOk then { s with disk := s.memory } else s

/-- Effect of `load_data` on startup: the parsed file contents if the file
exists (`none` models a missing or unreadable file, yielding `{}`). -/
def load_data (file : Option Table) : Table :=
  file.getD []

/-- Stateful `cleanup_expired_links`: sweep memory and, if any code was
removed (`if expired_codes:`), call `save_data`. -/
def cleanupS (now : Nat) (saveOk : Bool) (s : State) : State :=
  let s1 : State := { memory := cleanup_expired_links now s.memory, disk := s.disk }
  if (expiredCodes now s.memory).isEmpty then s1 else save_data saveOk s1

/-- Reply of `start` for an expired dict record. -/
def expiredMsg : String := "❌ This link has expired."

/-- Reply of `start` for a non-str, non-dict record. -/
def invalidFormatMsg : String := "❌ Invalid link format."

/-- Reply of `start` when the code is absent (or its value is falsy). -/
def notFoundMsg : String := "❌ Invalid or expired link."

/-- Warning sent after a delivered message. -/
def warningMsg : String := "⏳ This file will be deleted after 30 minutes."

/-- Reply of `start`'s outer `except` handler. -/
def genericErrorMsg : String := "❌ An error occurred. Please try again."

/-- Admin welcome of `start` without arguments. -/
def adminWelcomeMsg : String :=
  "👋 Welcome Admin!\n\nAvailable commands:\n• Send any message to create a shareable link\n• /list - View all active links\n• /delete <code> - Delete a specific link\n• /cleanup - Remove expired links\n• /stop - Stop the bot (admin only)"

/-- Non-admin welcome of `start` without arguments. -/
def userWelcomeMsg : String := "👋 Welcome! Please contact the admin for access."

/-- The lookup-and-deliver part of `start` after the sweep, on the already
swept table. `Except.error` is the `KeyError` raised by
`link_data['created_at']` on a dict without that field; the success value
is the list of reply texts sent. -/
def redeemCore (t1 : Table) (code : String) (nowCheck : Nat) : Except Unit (List String) :=
  match lookup t1 code with
  | none => .ok [notFoundMsg]
  | some r =>
    if r.truthy then
      match r with
      | .legacy s => .ok [s, warningMsg]
      | .node m c? =>
        match c? with
        | none => .error ()
        | some c =>
          if c + ttlSeconds < nowCheck then .ok [expiredMsg]
          else .ok [m.getD "", warningMsg]
      | .other _ => .ok [invalidFormatMsg]
    else .ok [notFoundMsg]

/-- Handler `start`. With an argument it sweeps (`cleanup_expired_links`),
looks the code up and replies; a `KeyError` escaping to the outer
`try/except` yields the generic error reply. Without arguments it replies
with a welcome message. Two time parameters reflect the two separate
`datetime.now()` calls (inside the sweep, and at the expiry re-check). -/
def start (s : State) (userId adminId : Nat) (args : Option String)
    (nowSweep nowCheck : Nat) (saveOk : Bool) : State × List String :=
  match args with
  | some code =>
    let s1 := cleanupS nowSweep saveOk s
    match redeemCore s1.memory code nowCheck with
    | .ok replies => (s1, replies)
    | .error _ => (s1, [genericErrorMsg])
  | none =>
    (s, [if userId = adminId then adminWelcomeMsg else userWelcomeMsg])

/-- Python's `str.strip()`: drop whitespace from both ends (modelled on the
ASCII whitespace characters). -/
def pyStrip (s : String) : String :=
  String.mk (((s.data.dropWhile Char.isWhitespace).reverse.dropWhile Char.isWhitespace).reverse)

/-- Unauthorized reply common to the admin-only handlers. -/
def unauthorizedMsg : String := "⛔ Unauthorized access."

/-- Reply of `handle_admin_message` to blank text. -/
def emptyInputMsg : String := "⚠️ Please send a non-empty message."

/-- The deep link `https://t.me/{bot_username}?start={code}`. -/
def linkFor (u code : String) : String :=
  "https://t.me/" ++ u ++ "?start=" ++ code

/-- The success response of `handle_admin_message`
(`"\n".join(response_lines)`). -/
def createResponse (u code : String) : String :=
  String.intercalate "\n"
    ["✅ Link generated:", linkFor u code, "", "🔗 Code: " ++ code, "⏰ Expires in 30 minutes"]

/-- Handler `handle_admin_message`: reject non-admins, strip the text and
reject blanks, sweep, store `{'message': text, 'created_at': now}` under a
fresh code (the random `uuid4` prefix is the parameter `code`), save, and
reply with the link (bot username `u` from `get_me`). -/
def handle_admin_message (s : State) (userId adminId : Nat) (rawText code : String)
    (now : Nat) (u : String) (saveOk : Bool) : State × List String :=
  if userId ≠ adminId then (s, [unauthorizedMsg])
  else
    let text := pyStrip rawText
    if text = "" then (s, [emptyInputMsg])
    else
      let s1 := cleanupS now saveOk s
      let m2 := setValue s1.memory code (.node (some text) (some now))
      let s2 := save_data saveOk { memory := m2, disk := s1.disk }
      (s2, [createResponse u code])

/-- Python's `int(tl.total_seconds() // 60)`: floor division. -/
def minutesPart (tl : Int) : Int := Int.fdiv tl 60

/-- Python's `int(tl.total_seconds() % 60)`: modulo with the divisor's sign. -/
def secondsPart (tl : Int) : Int := Int.emod tl 60

/-- The lines `list_links` emits for one entry. `Except.error` is the
`KeyError` on a dict without `created_at`, or the `TypeError` of
`len(message)` on a non-str, non-dict value. -/
def entryLines (code : String) (r : Rec) (nowList : Nat) (u : String) :
    Except Unit (List String) :=
  match r with
  | .node m c? =>
    match c? with
    | none => .error ()
    | some c =>
      let message := m.getD ""
      let tl : Int := (ttlSeconds : Int) - ((nowList : Int) - (c : Int))
      let tls := toString (minutesPart tl) ++ "m " ++ toString (secondsPart tl) ++ "s"
      let display := if message.length > 50 then message.take 50 ++ "..." else message
      .ok ["🔗 " ++ code ++ ": " ++ linkFor u code, "📝 " ++ display,
           "⏰ " ++ tls ++ " remaining", ""]
  | .legacy s =>
      let display := if s.length > 50 then s.take 50 ++ "..." else s
      .ok ["🔗 " ++ code ++ ": " ++ linkFor u code, "📝 " ++ display,
           "⏰ Unknown remaining", ""]
  | .other _ => .error ()

/-- The loop body of `list_links` over the whole (already swept) table. -/
def listBody (t : Table) (nowList : Nat) (u : String) : Except Unit (List String) :=
  match t with
  | [] => .ok []
  | (code, r) :: rest =>
    match entryLines code r nowList u with
    | .error e => .error e
    | .ok lines =>
      match listBody rest nowList u with
      | .error e => .error e
      | .ok ls => .ok (lines ++ ls)

/-- Reply of `list_links` when the table is empty after the sweep. -/
def noActiveMsg : String := "📭 No active links."

/-- Reply of `list_links`' outer `except` handler. -/
def listErrorMsg : String := "❌ An error occurred while listing links."

/-- Handler `list_links`: admin only; sweep, then either the fixed
empty-table reply or the assembled listing; an escaped exception yields the
handler's error reply. -/
def list_links (s : State) (userId adminId : Nat) (nowSweep nowList : Nat)
    (u : String) (saveOk : Bool) : State × List String :=
  if userId ≠ adminId then (s, [unauthorizedMsg])
  else
    let s1 := cleanupS nowSweep saveOk s
    if s1.memory.isEmpty then (s1, [noActiveMsg])
    else
      match listBody s1.memory nowList u with
      | .ok lines =>
          (s1, [String.intercalate "\n" ("📋 Active Links:" :: "" :: lines)])
      | .error _ => (s1, [listErrorMsg])

/-- Usage reply of `delete_link` without an argument. -/
def deleteUsageMsg : String := "❌ Usage: /delete <code>"

/-- Success reply of `delete_link`. -/
def deleteSuccessMsg (code : String) : String := "✅ Link " ++ code ++ " deleted."

/-- Reply of `delete_link` for an absent code. -/
def deleteNotFoundMsg : String := "⚠️ Link not found."

/-- Handler `delete_link`: admin only; if the code is present, delete it
and save; note that unlike the other handlers it performs no expiry sweep. -/
def delete_link (s : State) (userId adminId : Nat) (args : Option String)
    (saveOk : Bool) : State × List String :=
  if userId ≠ adminId then (s, [unauthorizedMsg])
  else
    match args with
    | none => (s, [deleteUsageMsg])
    | some code =>
      if (lookup s.memory code).isSome then
        let s2 := save_data saveOk { memory := eraseKey s.memory code, disk := s.disk }
        (s2, [deleteSuccessMsg code])
      else (s, [deleteNotFoundMsg])

/-- Reply of `cleanup_command`. -/
def cleanupDoneMsg (removed : Nat) : String :=
  "🧹 Cleanup completed!\nRemoved " ++ toString removed ++ " expired links."

/-- Handler `cleanup_command`: admin only; sweep and report
`initial_count - final_count`. -/
def cleanup_command (s : State) (userId adminId : Nat) (now : Nat) (saveOk : Bool) :
    State × List String :=
  if userId ≠ adminId then (s, [unauthorizedMsg])
  else
    let s1 := cleanupS now saveOk s
    (s1, [cleanupDoneMsg (s.memory.length - s1.memory.length)])

/-- Iterated redemption of one code: the state after `n` successive calls
of the `start` handler on `code`, at fixed times. -/
def redeemTimes (s : State) (userId adminId : Nat) (code : String)
    (nowSweep nowCheck : Nat) (saveOk : Bool) : Nat → State
  | 0 => s
  | n + 1 =>
    (start (redeemTimes s userId adminId code nowSweep nowCheck saveOk n)
      userId adminId (some code) nowSweep nowCheck saveOk).1

/-- Whether an `Except` computation finished without raising. -/
def exceptOk {α : Type} : Except Unit α → Bool
  | .ok _ => true
  | .error _ => false

/-- The record shapes named by the persistence spec: a legacy bare string,
or an object with both `message` and `created_at` fields. -/
def recAcceptable : Rec → Bool
  | .legacy _ => true
  | .node (some _) (some _) => true
  | _ => false

/-! Helper lemmas about the dict model. -/

theorem lookup_filter_keep (q : Rec → Bool) (t : Table) (code : String) (r : Rec)
    (hl : lookup t code = some r) (hq : q r = true) :
    lookup (t.filter (fun p => q p.2)) code = some r := by
  induction t with
  | nil => simp [lookup] at hl
  | cons p rest ih =>
    obtain ⟨k, v⟩ := p
    simp only [lookup] at hl
    by_cases hk : k = code
    · simp only [hk, if_pos rfl] at hl
      cases hl
      simp [List.filter_cons, hq, lookup, hk]
    · simp only [if_neg hk] at hl
      by_cases hv : q v
      · simpa [List.filter_cons, hv, lookup, hk] using ih hl
      · simpa [List.filter_cons, hv] using ih hl

theorem lookup_filter_of_none (q : Rec → Bool) (t : Table) (code : String)
    (hl : lookup t code = none) :
    lookup (t.filter (fun p => q p.2)) code = none := by
  induction t with
  | nil => exact hl
  | cons p rest ih =>
    obtain ⟨k, v⟩ := p
    simp only [lookup] at hl
    by_cases hk : k = code
    · simp [hk] at hl
    · simp only [if_neg hk] at hl
      by_cases hv : q v
      · simpa [List.filter_cons, hv, lookup, hk] using ih hl
      · simpa [List.filter_cons, hv] using ih hl

theorem lookup_eq_none_of_not_mem_keys (t : Table) (code : String)
    (h : code ∉ t.map Prod.fst) : lookup t code = none := by
  induction t with
  | nil => simp [lookup]
  | cons p rest ih =>
    obtain ⟨k, v⟩ := p
    simp only [List.map_cons, List.mem_cons, not_or] at h
    have hk : k ≠ code := fun he => h.1 he.symm
    simp [lookup, hk, ih h.2]

theorem lookup_filter_drop (q : Rec → Bool) (t : Table) (code : String) (r : Rec)
    (hnd : (t.map Prod.fst).Nodup)
    (hl : lookup t code = some r) (hq : q r = false) :
    lookup (t.filter (fun p => q p.2)) code = none := by
  induction t with
  | nil => simp [lookup] at hl
  | cons p rest ih =>
    obtain ⟨k, v⟩ := p
    simp only [List.map_cons, List.nodup_cons] at hnd
    simp only [lookup] at hl
    by_cases hk : k = code
    · simp only [hk, if_pos rfl] at hl
      cases hl
      have hrest : lookup rest code = none := by
        apply lookup_eq_none_of_not_mem_keys
        rw [← hk]
        exact hnd.1
      simp [List.filter_cons, hq, lookup_filter_of_none q rest code hrest]
    · simp only [if_neg hk] at hl
      by_cases hv : q v
      · simpa [List.filter_cons, hv, lookup, hk] using ih hnd.2 hl
      · simpa [List.filter_cons, hv] using ih hnd.2 hl

theorem lookup_setValue_self (t : Table) (code : String) (r : Rec) :
    lookup (setValue t code r) code = some r := by
  induction t with
  | nil => simp [setValue, lookup]
  | cons p rest ih =>
    obtain ⟨k, v⟩ := p
    by_cases hk : k = code
    · simp [setValue, hk, lookup]
    · simp [setValue, hk, lookup, ih]

theorem lookup_eraseKey_self (t : Table) (code : String)
    (hnd : (t.map Prod.fst).Nodup) :
    lookup (eraseKey t code) code = none := by
  induction t with
  | nil => simp [eraseKey, lookup]
  | cons p rest ih =>
    obtain ⟨k, v⟩ := p
    simp only [List.map_cons, List.nodup_cons] at hnd
    by_cases hk : k = code
    · rw [eraseKey, if_pos hk]
      apply lookup_eq_none_of_not_mem_keys
      rw [← hk]
      exact hnd.1
    · simp [eraseKey, hk, lookup, ih hnd.2]

theorem lookup_mem (t : Table) (code : String) (r : Rec)
    (h : lookup t code = some r) : (code, r) ∈ t := by
  induction t with
  | nil => simp [lookup] at h
  | cons p rest ih =>
    obtain ⟨k, v⟩ := p
    simp only [lookup] at h
    by_cases hk : k = code
    · simp only [hk, if_pos rfl] at h
      cases h
      simp [hk]
    · simp only [if_neg hk] at h
      exact List.mem_cons_of_mem _ (ih h)

theorem cleanupS_memory (now : Nat) (saveOk : Bool) (s : State) :
    (cleanupS now saveOk s).memory = cleanup_expired_links now s.memory := by
  unfold cleanupS save_data
  by_cases h : (expiredCodes now s.memory).isEmpty
  · simp [h]
  · by_cases hs : saveOk <;> simp [h, hs]

theorem cleanupS_disk_of_save_fail (now : Nat) (s : State) :
    (cleanupS now false s).disk = s.disk := by
  unfold cleanupS save_data
  by_cases h : (expiredCodes now s.memory).isEmpty <;> simp [h]

theorem lookup_cleanup_keep (now : Nat) (t : Table) (code : String) (r : Rec)
    (hl : lookup t code = some r) (hq : isExpired now r = false) :
    lookup (cleanup_expired_links now t) code = some r := by
  unfold cleanup_expired_links
  exact lookup_filter_keep (fun x => !isExpired now x) t code r hl (by simp [hq])

theorem lookup_cleanup_drop (now : Nat) (t : Table) (code : String) (r : Rec)
    (hnd : (t.map Prod.fst).Nodup)
    (hl : lookup t code = some r) (hq : isExpired now r = true) :
    lookup (cleanup_expired_links now t) code = none := by
  unfold cleanup_expired_links
  exact lookup_filter_drop (fun x => !isExpired now x) t code r hnd hl (by simp [hq])

theorem lookup_cleanup_none (now : Nat) (t : Table) (code : String)
    (hl : lookup t code = none) :
    lookup (cleanup_expired_links now t) code = none :=
  lookup_filter_of_none (fun x => !isExpired now x) t code hl

theorem save_data_memory (saveOk : Bool) (s : State) :
    (save_data saveOk s).memory = s.memory := by
  unfold save_data
  cases saveOk <;> simp

theorem truthy_node_created (m : Option String) (c : Nat) :
    (Rec.node m (some c)).truthy = true := by
  cases m <;> rfl

theorem isExpired_node_no_created (now : Nat) (m : Option String) :
    isExpired now (Rec.node m none) = false := by
  cases m <;> rfl

theorem start_state_eq (s : State) (userId adminId : Nat) (code : String)
    (nowSweep nowCheck : Nat) (saveOk : Bool) :
    (start s userId adminId (some code) nowSweep nowCheck saveOk).1
      = cleanupS nowSweep saveOk s := by
  unfold start
  cases h : redeemCore (cleanupS nowSweep saveOk s).memory code nowCheck <;> simp [h]

theorem start_delivers (s : State) (userId adminId : Nat) (code msg : String)
    (c : Nat) (nowSweep nowCheck : Nat) (saveOk : Bool)
    (hl : lookup s.memory code = some (.node (some msg) (some c)))
    (h1 : ¬ c + ttlSeconds < nowSweep) (h2 : ¬ c + ttlSeconds < nowCheck) :
    (start s userId adminId (some code) nowSweep nowCheck saveOk).2
      = [msg, warningMsg] := by
  have hk : lookup (cleanup_expired_links nowSweep s.memory) code
      = some (.node (some msg) (some c)) :=
    lookup_cleanup_keep _ _ _ _ hl (by simp [isExpired, h1])
  have hred : redeemCore (cleanupS nowSweep saveOk s).memory code nowCheck
      = .ok [msg, warningMsg] := by
    rw [cleanupS_memory]
    unfold redeemCore
    rw [hk]
    simp [Rec.truthy, h2]
  simp [start, hred]

theorem start_not_found (s : State) (userId adminId : Nat) (code : String)
    (nowSweep nowCheck : Nat) (saveOk : Bool)
    (hk : lookup (cleanup_expired_links nowSweep s.memory) code = none) :
    (start s userId adminId (some code) nowSweep nowCheck saveOk).2 = [notFoundMsg] := by
  have hred : redeemCore (cleanupS nowSweep saveOk s).memory code nowCheck
      = .ok [notFoundMsg] := by
    rw [cleanupS_memory]
    unfold redeemCore
    rw [hk]
  simp [start, hred]

theorem start_expired (s : State) (userId adminId : Nat) (code : String)
    (m : Option String) (c : Nat) (nowSweep nowCheck : Nat) (saveOk : Bool)
    (hk : lookup (cleanup_expired_links nowSweep s.memory) code = some (.node m (some c)))
    (h2 : c + ttlSeconds < nowCheck) :
    (start s userId adminId (some code) nowSweep nowCheck saveOk).2 = [expiredMsg] := by
  have hred : redeemCore (cleanupS nowSweep saveOk s).memory code nowCheck
      = .ok [expiredMsg] := by
    rw [cleanupS_memory]
    unfold redeemCore
    rw [hk]
    simp [truthy_node_created, h2]
  simp [start, hred]

theorem redeemTimes_lookup (s : State) (userId adminId : Nat) (code msg : String)
    (c : Nat) (nowSweep nowCheck : Nat) (saveOk : Bool)
    (hl : lookup s.memory code = some (.node (some msg) (some c)))
    (h1 : ¬ c + ttlSeconds < nowSweep) :
    ∀ n, lookup (redeemTimes s userId adminId code nowSweep nowCheck saveOk n).memory code
      = some (.node (some msg) (some c)) := by
  intro n
  induction n with
  | zero => exact hl
  | succ k ih =>
    unfold redeemTimes
    rw [start_state_eq, cleanupS_memory]
    exact lookup_cleanup_keep _ _ _ _ ih (by simp [isExpired, h1])

theorem redeemCore_no_raise (t1 : Table) (code : String) (nowCheck : Nat)
    (hgood : ∀ p ∈ t1, recAcceptable p.2 = true) :
    exceptOk (redeemCore t1 code nowCheck) = true := by
  cases h : lookup t1 code with
  | none => simp [redeemCore, h, exceptOk]
  | some r =>
    have hacc : recAcceptable r = true := hgood (code, r) (lookup_mem _ _ _ h)
    match r with
    | .legacy s =>
      unfold redeemCore
      rw [h]
      by_cases hs : (s == "") = true <;> simp [Rec.truthy, hs, exceptOk]
    | .node (some m) (some c) =>
      unfold redeemCore
      rw [h]
      by_cases hc : c + ttlSeconds < nowCheck <;>
        simp [truthy_node_created, Rec.truthy, hc, exceptOk]
    | .node none c? =>
      cases c? <;> simp [recAcceptable] at hacc
    | .node (some m) none => simp [recAcceptable] at hacc
    | .other b => simp [recAcceptable] at hacc

theorem listBody_no_raise (t : Table) (nowList : Nat) (u : String)
    (hgood : ∀ p ∈ t, recAcceptable p.2 = true) :
    exceptOk (listBody t nowList u) = true := by
  induction t with
  | nil => rfl
  | cons p rest ih =>
    obtain ⟨code, r⟩ := p
    have hacc : recAcceptable r = true := hgood (code, r) (by simp)
    have hrest : ∀ q ∈ rest, recAcceptable q.2 = true := by
      intro q hq
      exact hgood q (List.mem_cons_of_mem _ hq)
    have hent : ∃ lines, entryLines code r nowList u = .ok lines := by
      match r with
      | .legacy s => exact ⟨_, rfl⟩
      | .node (some m) (some c) => exact ⟨_, rfl⟩
      | .node none c? => cases c? <;> simp [recAcceptable] at hacc
      | .node (some m) none => simp [recAcceptable] at hacc
      | .other b => simp [recAcceptable] at hacc
    obtain ⟨lines, hent⟩ := hent
    have := ih hrest
    cases hr : listBody rest nowList u with
    | error e => rw [hr] at this; simp [exceptOk] at this
    | ok ls => simp [listBody, hent, hr, exceptOk]

/-! Claim theorems. -/

/-- C1: for every record in the table that carries a `created_at` field and
whose age `now - created_at` exceeds the 30-minute TTL at the redemption
check, the `start` handler does not deliver the stored text: it replies
with the not-found message or the expired message, even though the expiry
check itself never removes the record. (Only object records carry a
`created_at`; a legacy bare-string record has none, so no record shape in
the table can both satisfy the age condition and be delivered.) -/
theorem ttl_expired_redeem_no_text (s : State) (userId adminId : Nat)
    (code : String) (m : Option String) (c : Nat) (nowSweep nowCheck : Nat)
    (saveOk : Bool)
    (hnd : (s.memory.map Prod.fst).Nodup)
    (hl : lookup s.memory code = some (.node m (some c)))
    (hexp : c + ttlSeconds < nowCheck) :
    (start s userId adminId (some code) nowSweep nowCheck saveOk).2 = [notFoundMsg]
    ∨ (start s userId adminId (some code) nowSweep nowCheck saveOk).2 = [expiredMsg] := by
  by_cases hs : c + ttlSeconds < nowSweep
  · left
    exact start_not_found _ _ _ _ _ _ _
      (lookup_cleanup_drop _ _ _ _ hnd hl (by simp [isExpired, hs]))
  · right
    exact start_expired _ _ _ _ _ _ _ _ _
      (lookup_cleanup_keep _ _ _ _ hl (by simp [isExpired, hs])) hexp

/-- Witness for C1 at a concrete expired record. -/
theorem ttl_expired_redeem_no_text_witness :
    (start (⟨[("c", Rec.node (some "hi") (some 0))], []⟩ : State) 1 2 (some "c")
        2000 2500 true).2 = [notFoundMsg]
    ∨ (start (⟨[("c", Rec.node (some "hi") (some 0))], []⟩ : State) 1 2 (some "c")
        2000 2500 true).2 = [expiredMsg] :=
  ttl_expired_redeem_no_text ⟨[("c", Rec.node (some "hi") (some 0))], []⟩ 1 2 "c"
    (some "hi") 0 2000 2500 true (by decide) (by decide) (by decide)

/-- C5: the expiry sweep is idempotent: for every table and fixed time, a
second sweep collects no expired codes and leaves the table exactly as the
first sweep left it. -/
theorem sweep_idempotent (t : Table) (now : Nat) :
    cleanup_expired_links now (cleanup_expired_links now t) = cleanup_expired_links now t
    ∧ expiredCodes now (cleanup_expired_links now t) = [] := by
  constructor
  · unfold cleanup_expired_links
    induction t with
    | nil => rfl
    | cons p rest ih =>
      by_cases hp : isExpired now p.2 <;> simp [List.filter_cons, hp, ih]
  · unfold expiredCodes cleanup_expired_links
    induction t with
    | nil => rfl
    | cons p rest ih =>
      by_cases hp : isExpired now p.2 <;> simp [List.filter_cons, hp, ih]

/-- C7: a successful redemption does not remove the record: if the code maps
to an unexpired object record, `start` delivers the text, the record is
still present afterwards, and any number of further redemptions at
in-TTL times deliver the text again. -/
theorem redeem_preserves_record (s : State) (userId adminId : Nat)
    (code msg : String) (c : Nat) (nowSweep nowCheck : Nat) (saveOk : Bool)
    (hl : lookup s.memory code = some (.node (some msg) (some c)))
    (h1 : ¬ c + ttlSeconds < nowSweep) (h2 : ¬ c + ttlSeconds < nowCheck) :
    (start s userId adminId (some code) nowSweep nowCheck saveOk).2 = [msg, warningMsg]
    ∧ lookup (start s userId adminId (some code) nowSweep nowCheck saveOk).1.memory code
        = some (.node (some msg) (some c))
    ∧ ∀ n, (start (redeemTimes s userId adminId code nowSweep nowCheck saveOk n)
        userId adminId (some code) nowSweep nowCheck saveOk).2 = [msg, warningMsg] := by
  refine ⟨start_delivers _ _ _ _ _ _ _ _ _ hl h1 h2, ?_, ?_⟩
  · rw [start_state_eq, cleanupS_memory]
    exact lookup_cleanup_keep _ _ _ _ hl (by simp [isExpired, h1])
  · intro n
    exact start_delivers _ _ _ _ _ _ _ _ _
      (redeemTimes_lookup _ _ _ _ _ _ _ _ _ hl h1 n) h1 h2

/-- Witness for C7 at a concrete unexpired record. -/
theorem redeem_preserves_record_witness :
    (start (⟨[("c", Rec.node (some "hi") (some 100))], []⟩ : State) 1 2 (some "c")
        200 300 true).2 = ["hi", warningMsg]
    ∧ lookup (start (⟨[("c", Rec.node (some "hi") (some 100))], []⟩ : State) 1 2
        (some "c") 200 300 true).1.memory "c" = some (Rec.node (some "hi") (some 100))
    ∧ ∀ n, (start (redeemTimes ⟨[("c", Rec.node (some "hi") (some 100))], []⟩ 1 2 "c"
        200 300 true n) 1 2 (some "c") 200 300 true).2 = ["hi", warningMsg] :=
  redeem_preserves_record ⟨[("c", Rec.node (some "hi") (some 100))], []⟩ 1 2 "c" "hi"
    100 200 300 true (by decide) (by decide) (by decide)

/-- C6: deleting a code then redeeming it yields the not-found reply; the
deletion removes the record from memory unconditionally (no reference to
its TTL state), and its reply reports whether a record existed. -/
theorem delete_then_redeem_not_found (s : State) (adminId userId2 adminId2 : Nat)
    (code : String) (nowSweep nowCheck : Nat) (saveOk1 saveOk2 : Bool)
    (hnd : (s.memory.map Prod.fst).Nodup) :
    (start (delete_link s adminId adminId (some code) saveOk1).1 userId2 adminId2
        (some code) nowSweep nowCheck saveOk2).2 = [notFoundMsg]
    ∧ lookup (delete_link s adminId adminId (some code) saveOk1).1.memory code = none
    ∧ ((lookup s.memory code).isSome = true →
        (delete_link s adminId adminId (some code) saveOk1).2 = [deleteSuccessMsg code])
    ∧ ((lookup s.memory code).isSome = false →
        (delete_link s adminId adminId (some code) saveOk1).2 = [deleteNotFoundMsg]) := by
  by_cases hp : (lookup s.memory code).isSome = true
  · have hmem : (delete_link s adminId adminId (some code) saveOk1).1.memory
        = eraseKey s.memory code := by
      simp [delete_link, hp, save_data_memory]
    have hgone : lookup (delete_link s adminId adminId (some code) saveOk1).1.memory code
        = none := by
      rw [hmem]
      exact lookup_eraseKey_self _ _ hnd
    refine ⟨?_, hgone, fun _ => by simp [delete_link, hp], fun hq => by rw [hp] at hq; cases hq⟩
    exact start_not_found _ _ _ _ _ _ _ (lookup_cleanup_none _ _ _ hgone)
  · have hnone : lookup s.memory code = none := by
      cases hq : lookup s.memory code with
      | none => rfl
      | some r => rw [hq] at hp; simp at hp
    have hmem : (delete_link s adminId adminId (some code) saveOk1).1 = s := by
      simp [delete_link, hnone]
    have hgone : lookup (delete_link s adminId adminId (some code) saveOk1).1.memory code
        = none := by
      rw [hmem]
      exact hnone
    have himp1 : (lookup s.memory code).isSome = true →
        (delete_link s adminId adminId (some code) saveOk1).2 = [deleteSuccessMsg code] := by
      intro hq
      rw [hnone] at hq
      cases hq
    have himp2 : (lookup s.memory code).isSome = false →
        (delete_link s adminId adminId (some code) saveOk1).2 = [deleteNotFoundMsg] := by
      intro _
      simp [delete_link, hnone]
    refine ⟨?_, hgone, himp1, himp2⟩
    rw [hmem]
    exact start_not_found _ _ _ _ _ _ _ (lookup_cleanup_none _ _ _ hnone)

/-- Witness for C6 at a concrete present code and at an absent one. -/
theorem delete_then_redeem_not_found_witness :
    (start (delete_link (⟨[("c", Rec.node (some "hi") (some 0))], []⟩ : State) 1 1
        (some "c") true).1 2 3 (some "c") 50 60 true).2 = [notFoundMsg]
    ∧ lookup (delete_link (⟨[("c", Rec.node (some "hi") (some 0))], []⟩ : State) 1 1
        (some "c") true).1.memory "c" = none
    ∧ ((lookup ([("c", Rec.node (some "hi") (some 0))] : Table) "c").isSome = true →
        (delete_link (⟨[("c", Rec.node (some "hi") (some 0))], []⟩ : State) 1 1
          (some "c") true).2 = [deleteSuccessMsg "c"])
    ∧ ((lookup ([("c", Rec.node (some "hi") (some 0))] : Table) "c").isSome = false →
        (delete_link (⟨[("c", Rec.node (some "hi") (some 0))], []⟩ : State) 1 1
          (some "c") true).2 = [deleteNotFoundMsg]) :=
  delete_then_redeem_not_found ⟨[("c", Rec.node (some "hi") (some 0))], []⟩ 1 2 3 "c"
    50 60 true true (by decide)

/-- C2 counterexample: `delete_link` runs no expiry sweep. Deleting `tgt`
from a table that also holds the record `old` aged far past the TTL leaves
`old` in memory, although the sweep at that moment would have removed it. -/
theorem delete_skips_sweep_cex :
    (delete_link (⟨[("old", Rec.node (some "x") (some 0)),
        ("tgt", Rec.node (some "y") (some 10000))], []⟩ : State) 1 1
        (some "tgt") true).1.memory = [("old", Rec.node (some "x") (some 0))]
    ∧ isExpired 3600 (Rec.node (some "x") (some 0)) = true
    ∧ lookup (cleanup_expired_links 3600 [("old", Rec.node (some "x") (some 0)),
        ("tgt", Rec.node (some "y") (some 10000))]) "old" = none := by
  refine ⟨by decide, by decide, by decide⟩

/-- C2 amended: the redeem, list and create operations each begin with the
expiry sweep before their own lookup or mutation, but the delete operation
performs no sweep: it removes exactly the named entry from the unswept
table. -/
theorem sweep_before_operations (s : State) (userId adminId : Nat)
    (code rawText code2 code3 : String) (nowSweep nowCheck nowList now : Nat)
    (u : String) (saveOk : Bool)
    (htrim : pyStrip rawText ≠ "")
    (hp : (lookup s.memory code3).isSome = true) :
    (start s userId adminId (some code) nowSweep nowCheck saveOk).1.memory
      = cleanup_expired_links nowSweep s.memory
    ∧ (list_links s adminId adminId nowSweep nowList u saveOk).1.memory
      = cleanup_expired_links nowSweep s.memory
    ∧ (handle_admin_message s adminId adminId rawText code2 now u saveOk).1.memory
      = setValue (cleanup_expired_links now s.memory) code2
          (.node (some (pyStrip rawText)) (some now))
    ∧ (delete_link s adminId adminId (some code3) saveOk).1.memory
      = eraseKey s.memory code3 := by
  refine ⟨?_, ?_, ?_, ?_⟩
  · rw [start_state_eq, cleanupS_memory]
  · unfold list_links
    simp only [ne_eq, not_true_eq_false, if_false]
    split
    · exact cleanupS_memory _ _ _
    · split <;> exact cleanupS_memory _ _ _
  · simp [handle_admin_message, htrim, save_data_memory, cleanupS_memory]
  · simp [delete_link, hp, save_data_memory]

/-- Witness for the amended C2 at concrete states. -/
theorem sweep_before_operations_witness :
    (start (⟨[("k", Rec.legacy "v")], []⟩ : State) 1 2 (some "q") 10 20 true).1.memory
      = cleanup_expired_links 10 [("k", Rec.legacy "v")]
    ∧ (list_links (⟨[("k", Rec.legacy "v")], []⟩ : State) 2 2 10 30 "bot" true).1.memory
      = cleanup_expired_links 10 [("k", Rec.legacy "v")]
    ∧ (handle_admin_message (⟨[("k", Rec.legacy "v")], []⟩ : State) 2 2 "msg" "c2" 40
        "bot" true).1.memory
      = setValue (cleanup_expired_links 40 [("k", Rec.legacy "v")]) "c2"
          (.node (some (pyStrip "msg")) (some 40))
    ∧ (delete_link (⟨[("k", Rec.legacy "v")], []⟩ : State) 2 2 (some "k") true).1.memory
      = eraseKey [("k", Rec.legacy "v")] "k" :=
  sweep_before_operations ⟨[("k", Rec.legacy "v")], []⟩ 1 2 "q" "msg" "c2" "k" 10 20 30
    40 "bot" true (by decide) (by decide)

/-- C3 counterexample: the two failure replies are not identical. A code
present but past TTL at the re-check draws the expired message, an absent
code draws the invalid-or-expired message, and the two strings differ. -/
theorem failure_replies_differ_cex :
    (start (⟨[("c", Rec.node (some "hi") (some 0))], []⟩ : State) 5 1 (some "c")
        100 2000 true).2 = [expiredMsg]
    ∧ (start (⟨[], []⟩ : State) 5 1 (some "c") 100 2000 true).2 = [notFoundMsg]
    ∧ expiredMsg ≠ notFoundMsg := by
  refine ⟨by decide, by decide, by decide⟩

/-- C3 amended: each failure draws one fixed reply, but the two replies are
distinct: a code absent after the sweep always draws the invalid-or-expired
message, while a surviving record that fails the TTL re-check always draws
the expired message. -/
theorem failure_replies_fixed (s1 s2 : State) (userId1 adminId1 userId2 adminId2 : Nat)
    (code1 code2 : String) (nowSweep1 nowCheck1 nowSweep2 nowCheck2 : Nat)
    (saveOk1 saveOk2 : Bool) (m : Option String) (c : Nat)
    (h1 : lookup (cleanup_expired_links nowSweep1 s1.memory) code1 = none)
    (h2 : lookup (cleanup_expired_links nowSweep2 s2.memory) code2
        = some (.node m (some c)))
    (h3 : c + ttlSeconds < nowCheck2) :
    (start s1 userId1 adminId1 (some code1) nowSweep1 nowCheck1 saveOk1).2 = [notFoundMsg]
    ∧ (start s2 userId2 adminId2 (some code2) nowSweep2 nowCheck2 saveOk2).2 = [expiredMsg]
    ∧ notFoundMsg ≠ expiredMsg := by
  refine ⟨start_not_found _ _ _ _ _ _ _ h1, start_expired _ _ _ _ _ _ _ _ _ h2 h3, by decide⟩

/-- Witness for the amended C3 at concrete states. -/
theorem failure_replies_fixed_witness :
    (start (⟨[], []⟩ : State) 5 1 (some "c") 100 150 true).2 = [notFoundMsg]
    ∧ (start (⟨[("d", Rec.node (some "hi") (some 0))], []⟩ : State) 5 1 (some "d")
        100 2000 true).2 = [expiredMsg]
    ∧ notFoundMsg ≠ expiredMsg :=
  failure_replies_fixed ⟨[], []⟩ ⟨[("d", Rec.node (some "hi") (some 0))], []⟩ 5 1 5 1
    "c" "d" 100 150 100 2000 true true (some "hi") 0 (by decide) (by decide) (by decide)

/-- C4 counterexample: the admin handler strips the submitted text before
storing it, so redeeming right after submitting `" hi"` (non-empty)
delivers `"hi"`, not the original text. -/
theorem create_trims_text_cex :
    (start (handle_admin_message (⟨[], []⟩ : State) 1 1 " hi" "c" 0 "bot" true).1 1 1
        (some "c") 0 0 true).2 = ["hi", warningMsg]
    ∧ (" hi" : String) ≠ "hi" := by
  refine ⟨by decide, by decide⟩

/-- C4 amended: for every submission whose stripped form is non-empty,
redeeming the code immediately after creation delivers exactly the stripped
text; in particular the original text whenever it carries no surrounding
whitespace. -/
theorem create_then_redeem_trimmed (s : State) (adminId userId2 adminId2 : Nat)
    (rawText code : String) (now : Nat) (u : String) (saveOk1 saveOk2 : Bool)
    (htrim : pyStrip rawText ≠ "") :
    (start (handle_admin_message s adminId adminId rawText code now u saveOk1).1
        userId2 adminId2 (some code) now now saveOk2).2
      = [pyStrip rawText, warningMsg] := by
  have hmem : (handle_admin_message s adminId adminId rawText code now u saveOk1).1.memory
      = setValue (cleanup_expired_links now s.memory) code
          (.node (some (pyStrip rawText)) (some now)) := by
    simp [handle_admin_message, htrim, save_data_memory, cleanupS_memory]
  apply start_delivers
  · rw [hmem]
    exact lookup_setValue_self _ _ _
  · exact Nat.not_lt.mpr (Nat.le_add_right now ttlSeconds)
  · exact Nat.not_lt.mpr (Nat.le_add_right now ttlSeconds)

/-- Witness for the amended C4 at a concrete submission. -/
theorem create_then_redeem_trimmed_witness :
    (start (handle_admin_message (⟨[], []⟩ : State) 7 7 " hello " "c" 5 "bot" true).1
        9 7 (some "c") 5 5 false).2 = [pyStrip " hello ", warningMsg] :=
  create_then_redeem_trimmed ⟨[], []⟩ 7 9 7 " hello " "c" 5 "bot" true false (by decide)

/-- C8: a failed write-through (`saveOk = false`) rolls nothing back: after
a create the new record is in memory, after a delete of a present code the
record is gone from memory, the actors still get the success replies, and
the disk keeps its old contents in both cases. -/
theorem save_failure_no_rollback (s s2 : State) (adminId adminId2 : Nat)
    (rawText code code2 : String) (now : Nat) (u : String)
    (htrim : pyStrip rawText ≠ "")
    (hnd : (s2.memory.map Prod.fst).Nodup)
    (hp : (lookup s2.memory code2).isSome = true) :
    lookup (handle_admin_message s adminId adminId rawText code now u false).1.memory code
      = some (.node (some (pyStrip rawText)) (some now))
    ∧ (handle_admin_message s adminId adminId rawText code now u false).2
      = [createResponse u code]
    ∧ (handle_admin_message s adminId adminId rawText code now u false).1.disk = s.disk
    ∧ lookup (delete_link s2 adminId2 adminId2 (some code2) false).1.memory code2 = none
    ∧ (delete_link s2 adminId2 adminId2 (some code2) false).2 = [deleteSuccessMsg code2]
    ∧ (delete_link s2 adminId2 adminId2 (some code2) false).1.disk = s2.disk := by
  have hmem : (handle_admin_message s adminId adminId rawText code now u false).1.memory
      = setValue (cleanup_expired_links now s.memory) code
          (.node (some (pyStrip rawText)) (some now)) := by
    simp [handle_admin_message, htrim, save_data_memory, cleanupS_memory]
  refine ⟨?_, ?_, ?_, ?_, ?_, ?_⟩
  · rw [hmem]
    exact lookup_setValue_self _ _ _
  · simp [handle_admin_message, htrim]
  · simp [handle_admin_message, htrim, save_data, cleanupS_disk_of_save_fail]
  · have hm2 : (delete_link s2 adminId2 adminId2 (some code2) false).1.memory
        = eraseKey s2.memory code2 := by
      simp [delete_link, hp, save_data_memory]
    rw [hm2]
    exact lookup_eraseKey_self _ _ hnd
  · simp [delete_link, hp]
  · simp [delete_link, hp, save_data]

/-- Witness for C8 at concrete states. -/
theorem save_failure_no_rollback_witness :
    lookup (handle_admin_message (⟨[], [("z", Rec.legacy "old")]⟩ : State) 4 4 "txt"
        "c" 9 "bot" false).1.memory "c" = some (Rec.node (some (pyStrip "txt")) (some 9))
    ∧ (handle_admin_message (⟨[], [("z", Rec.legacy "old")]⟩ : State) 4 4 "txt" "c" 9
        "bot" false).2 = [createResponse "bot" "c"]
    ∧ (handle_admin_message (⟨[], [("z", Rec.legacy "old")]⟩ : State) 4 4 "txt" "c" 9
        "bot" false).1.disk = [("z", Rec.legacy "old")]
    ∧ lookup (delete_link (⟨[("d", Rec.legacy "v")], [("d", Rec.legacy "v")]⟩ : State)
        6 6 (some "d") false).1.memory "d" = none
    ∧ (delete_link (⟨[("d", Rec.legacy "v")], [("d", Rec.legacy "v")]⟩ : State) 6 6
        (some "d") false).2 = [deleteSuccessMsg "d"]
    ∧ (delete_link (⟨[("d", Rec.legacy "v")], [("d", Rec.legacy "v")]⟩ : State) 6 6
        (some "d") false).1.disk = [("d", Rec.legacy "v")] :=
  save_failure_no_rollback ⟨[], [("z", Rec.legacy "old")]⟩
    ⟨[("d", Rec.legacy "v")], [("d", Rec.legacy "v")]⟩ 4 6 "txt" "c" "d" 9 "bot"
    (by decide) (by decide) (by decide)

/-- C9: every table built only of legacy bare-string records and object
records carrying both `message` and `created_at` is accepted without raising
anywhere: loading it back from disk yields it unchanged, and neither the
redeem branch nor the listing loop raises on the (swept) table, a bare
string standing for the message itself. -/
theorem record_shapes_accepted (t : Table) (code : String)
    (nowSweep nowCheck nowList : Nat) (u : String)
    (hgood : ∀ p ∈ t, recAcceptable p.2 = true) :
    exceptOk (redeemCore (cleanup_expired_links nowSweep t) code nowCheck) = true
    ∧ exceptOk (listBody (cleanup_expired_links nowSweep t) nowList u) = true
    ∧ load_data (some t) = t := by
  have hgood2 : ∀ p ∈ cleanup_expired_links nowSweep t, recAcceptable p.2 = true := by
    intro p hpmem
    exact hgood p (List.mem_of_mem_filter hpmem)
  exact ⟨redeemCore_no_raise _ _ _ hgood2, listBody_no_raise _ _ _ hgood2, rfl⟩

/-- Witness for C9 at a concrete two-record table holding one legacy and
one object-form record. -/
theorem record_shapes_accepted_witness :
    exceptOk (redeemCore (cleanup_expired_links 50
        [("a", Rec.legacy "raw"), ("b", Rec.node (some "msg") (some 10))]) "a" 60) = true
    ∧ exceptOk (listBody (cleanup_expired_links 50
        [("a", Rec.legacy "raw"), ("b", Rec.node (some "msg") (some 10))]) 70 "bot") = true
    ∧ load_data (some [("a", Rec.legacy "raw"), ("b", Rec.node (some "msg") (some 10))])
      = [("a", Rec.legacy "raw"), ("b", Rec.node (some "msg") (some 10))] :=
  record_shapes_accepted [("a", Rec.legacy "raw"), ("b", Rec.node (some "msg") (some 10))]
    "a" 50 60 70 "bot" (by decide)

/-- C10 counterexample: an object record lacking `created_at` is indeed
never swept, but redeeming its code does not return its text: the lookup
raises `KeyError` and the handler replies with its generic error message. -/
theorem node_without_created_at_cex :
    (start (⟨[("c", Rec.node (some "hi") none)], []⟩ : State) 1 2 (some "c")
        999999 999999 true).2 = [genericErrorMsg]
    ∧ "hi" ∉ (start (⟨[("c", Rec.node (some "hi") none)], []⟩ : State) 1 2 (some "c")
        999999 999999 true).2 := by
  refine ⟨by decide, by decide⟩

/-- C10 amended: no sweep at any time removes a legacy bare-string record or
an object record lacking `created_at`; redeeming a non-empty bare-string
record's code delivers its text regardless of elapsed time, while redeeming
a truthy object record lacking `created_at` draws the handler's generic
error reply instead of the text. -/
theorem sweep_spares_shapes (t d : Table) (code : String) (now nowSweep nowCheck : Nat)
    (userId adminId : Nat) (saveOk : Bool) (s : String) (m : Option String) :
    (lookup t code = some (.legacy s) →
        lookup (cleanup_expired_links now t) code = some (.legacy s))
    ∧ (lookup t code = some (.legacy s) → s ≠ "" →
        (start ⟨t, d⟩ userId adminId (some code) nowSweep nowCheck saveOk).2
          = [s, warningMsg])
    ∧ (lookup t code = some (.node m none) →
        lookup (cleanup_expired_links now t) code = some (.node m none))
    ∧ (lookup t code = some (.node m none) → (Rec.node m none).truthy = true →
        (start ⟨t, d⟩ userId adminId (some code) nowSweep nowCheck saveOk).2
          = [genericErrorMsg]) := by
  refine ⟨?_, ?_, ?_, ?_⟩
  · intro hl
    exact lookup_cleanup_keep _ _ _ _ hl rfl
  · intro hl hs
    have hk : lookup (cleanup_expired_links nowSweep t) code = some (.legacy s) :=
      lookup_cleanup_keep _ _ _ _ hl rfl
    have hred : redeemCore (cleanupS nowSweep saveOk ⟨t, d⟩).memory code nowCheck
        = .ok [s, warningMsg] := by
      rw [cleanupS_memory]
      unfold redeemCore
      rw [hk]
      simp [Rec.truthy, hs]
    simp [start, hred]
  · intro hl
    exact lookup_cleanup_keep _ _ _ _ hl (isExpired_node_no_created now m)
  · intro hl ht
    have hk : lookup (cleanup_expired_links nowSweep t) code = some (.node m none) :=
      lookup_cleanup_keep _ _ _ _ hl (isExpired_node_no_created nowSweep m)
    have hred : redeemCore (cleanupS nowSweep saveOk ⟨t, d⟩).memory code nowCheck
        = .error () := by
      rw [cleanupS_memory]
      unfold redeemCore
      rw [hk]
      simp [ht]
    simp [start, hred]

/-- Witness for the amended C10 at a concrete legacy record and a concrete
object record lacking `created_at`. -/
theorem sweep_spares_shapes_witness :
    lookup (cleanup_expired_links 777777 [("c", Rec.legacy "old text")]) "c"
      = some (Rec.legacy "old text")
    ∧ (start (⟨[("c", Rec.legacy "old text")], []⟩ : State) 1 2 (some "c")
        777777 888888 true).2 = ["old text", warningMsg]
    ∧ lookup (cleanup_expired_links 777777 [("c", Rec.node (some "hi") none)]) "c"
      = some (Rec.node (some "hi") none)
    ∧ (start (⟨[("c", Rec.node (some "hi") none)], []⟩ : State) 1 2 (some "c")
        777777 888888 true).2 = [genericErrorMsg] :=
  ⟨(sweep_spares_shapes [("c", Rec.legacy "old text")] [] "c" 777777 777777 888888 1 2
      true "old text" (some "hi")).1 (by decide),
   (sweep_spares_shapes [("c", Rec.legacy "old text")] [] "c" 777777 777777 888888 1 2
      true "old text" (some "hi")).2.1 (by decide) (by decide),
   (sweep_spares_shapes [("c", Rec.node (some "hi") none)] [] "c" 777777 777777 888888
      1 2 true "old text" (some "hi")).2.2.1 (by decide),
   (sweep_spares_shapes [("c", Rec.node (some "hi") none)] [] "c" 777777 777777 888888
      1 2 true "old text" (some "hi")).2.2.2 (by decide) (by decide)⟩

end LinkBot
